import Mathlib

/-!
Verification of the TipALPH custodial wallet / transaction orchestration layer
(`src/services/alephium.ts` and its error module) against its natural-language
specification.  The TypeScript code is shallowly embedded: token amounts are
integers (`Int`, the code uses `bigint`), the user store is an explicit list,
promise rejection is `Except`, and the external collaborators (address
validator from the web3 library, token registry, HD wallet derivation) are
abstract function parameters.
-/

namespace TipALPH

/-- A registered token: contract id, display symbol, decimal precision
(`src/db/token`; immutable once loaded). -/
structure Token where
  id : String
  symbol : String
  decimals : Nat
deriving DecidableEq

/-- Symbol of the native asset (`ALPHSymbol` in the token manager). -/
def ALPHSymbol : String := "ALPH"

/-- Modelled from the spec: the token module is not among the sources; the
spec's data model distinguishes the native asset by its marker, and the bot
refers to it by the symbol "ALPH".  `isALPH` tests that marker. -/
def Token.isALPH (t : Token) : Bool := t.symbol == ALPHSymbol

/-- A token together with an integer amount in the smallest indivisible unit
(`TokenAmount` of the tokens module; the amount is a `bigint`). -/
structure TokenAmount where
  amount : Int
  token : Token
deriving DecidableEq

/-- Modelled from the spec: `amountAsNumber` of the missing tokens module
converts the smallest-unit integer amount into the human-readable value at the
token's decimal precision (modelled exactly, as a rational). -/
def TokenAmount.amountAsNumber (t : TokenAmount) : ℚ :=
  (t.amount : ℚ) / 10 ^ t.token.decimals

/-- Modelled from the spec: `substractAndGetPercentage(p)` of the missing
tokens module "returns a fee amount f and leaves a remainder"; the fee is "a
percentage of the requested amount (integer, floored)".  The mutation of the
receiver is modelled functionally: the result is (fee, remainder). -/
def TokenAmount.substractAndGetPercentage (t : TokenAmount) (p : Int) :
    TokenAmount × TokenAmount :=
  let fee := t.amount * p / 100
  (⟨fee, t.token⟩, ⟨t.amount - fee, t.token⟩)

/-! ## Error classifier (`adaptError`, `src/error.ts`) -/

/-- A raw error coming back from the node gateway: whether the value is a
proper `Error` instance carrying a message (the classifier predicates guard
on `value instanceof Error && "message" in value`), and its message string. -/
structure RawError where
  isErrorInstance : Bool
  message : String
deriving DecidableEq

/-- `alphErrorIsNetworkError`: a proper `Error` whose message is exactly
"fetch failed". -/
def alphErrorIsNetworkError (err : RawError) : Bool :=
  err.isErrorInstance && err.message == "fetch failed"

/-- Strip an expected literal prefix from a character list; `none` when the
list does not start with it. -/
def stripLiteral (pre cs : List Char) : Option (List Char) :=
  match pre, cs with
  | [], rest => some rest
  | p :: pre, c :: cs => if c == p then stripLiteral pre cs else none
  | _ :: _, [] => none

/-- Whether a message matches the anchored source regex
"[API Error] - Not enough balance: got (digits), expected (digits)": the
literal prefix, a non-empty greedy digit run, the literal middle, and a
non-empty digit run reaching the end of the message. -/
def notEnoughFundsMessageMatches (msg : String) : Bool :=
  match stripLiteral "[API Error] - Not enough balance: got ".data msg.data with
  | none => false
  | some rest =>
    let d1 := rest.takeWhile Char.isDigit
    let rest2 := rest.dropWhile Char.isDigit
    !d1.isEmpty &&
      (match stripLiteral ", expected ".data rest2 with
       | none => false
       | some d2 => !d2.isEmpty && d2.all Char.isDigit)

/-- `alphErrorIsNotEnoughFundsError`: a non-`Error` value takes the guard
branch and returns false.  For a proper `Error` the source then runs
`numbers = err.message.match(notEnoughFundsRegex); return 3 === numbers.length`:
a matching message yields an array of length 3 (full match plus the two digit
groups), hence `some true`; a non-matching message makes `match` return null,
so the length access throws a TypeError — modelled as `none`. -/
def alphErrorIsNotEnoughFundsError (err : RawError) : Option Bool :=
  if !err.isErrorInstance then some false
  else if notEnoughFundsMessageMatches err.message then some true
  else none

/-- Modelled from the spec: the remaining six classifier predicates live in
the error module, which is not among the sources; the spec describes them only
as "purely string/shape pattern matching on the error description", so they
are kept as abstract Boolean predicates of the raw error. -/
structure ErrorPatterns where
  isIOFailure : RawError → Bool
  isAmountOverflow : RawError → Bool
  isNotEnoughBalanceForFee : RawError → Bool
  isNotEnoughApprovedBalance : RawError → Bool
  isNotEnoughALPHForTxOutput : RawError → Bool
  isNotEnoughALPHForALPHAndTokenChangeOutput : RawError → Bool

/-- The classifier's output: one domain error kind per recognised pattern, or
the original error unchanged. -/
inductive AdaptedError where
  | NetworkError (orig : RawError)
  | AlphApiIOError (orig : RawError)
  | AlphAmountOverflowError (orig : RawError)
  | NotEnoughFundsError (orig : RawError)
  | NotEnoughBalanceForFeeError (orig : RawError)
  | NotEnoughApprovedBalanceForAddressError (orig : RawError)
  | NotEnoughALPHForTransactionOutputError (orig : RawError)
  | NotEnoughALPHForALPHAndTokenChangeOutputError (orig : RawError)
  | unchanged (orig : RawError)
deriving DecidableEq

/-- `adaptError` (alephium service): the if/else-if chain over the pattern
predicates, in the order of the source, falling through to the original
error.  The not-enough-funds probe can itself throw (see
`alphErrorIsNotEnoughFundsError`): `none` models that TypeError propagating
out of `adaptError` in place of any classification. -/
def adaptError (P : ErrorPatterns) (err : RawError) : Option AdaptedError :=
  if alphErrorIsNetworkError err then some (.NetworkError err)
  else if P.isIOFailure err then some (.AlphApiIOError err)
  else if P.isAmountOverflow err then some (.AlphAmountOverflowError err)
  else
    match alphErrorIsNotEnoughFundsError err with
    | none => none
    | some true => some (.NotEnoughFundsError err)
    | some false =>
      if P.isNotEnoughBalanceForFee err then
        some (.NotEnoughBalanceForFeeError err)
      else if P.isNotEnoughApprovedBalance err then
        some (.NotEnoughApprovedBalanceForAddressError err)
      else if P.isNotEnoughALPHForTxOutput err then
        some (.NotEnoughALPHForTransactionOutputError err)
      else if P.isNotEnoughALPHForALPHAndTokenChangeOutput err then
        some (.NotEnoughALPHForALPHAndTokenChangeOutputError err)
      else some (.unchanged err)

/-- C1 (failing input): an `Error` instance whose message "unexpected node
reply" matches none of the documented patterns (the spec-modelled abstract
patterns valued false, as non-matching regex probes are) is NOT returned
unchanged: once the chain reaches the not-enough-funds probe, the source runs
`err.message.match(regex).length` on a null match and throws a TypeError
(`none`), replacing the original error — the claim and the spec require
`some (.unchanged err)`, never a throw.  The shapes tested before that probe
still classify correctly: "fetch failed" maps to `NetworkError` and a
matching not-enough-balance message maps to `NotEnoughFundsError`. -/
theorem adaptError_throws_on_unrecognized_shape :
    adaptError
        ⟨fun _ => false, fun _ => false, fun _ => false,
         fun _ => false, fun _ => false, fun _ => false⟩
        ⟨true, "unexpected node reply"⟩ = none ∧
    adaptError
        ⟨fun _ => false, fun _ => false, fun _ => false,
         fun _ => false, fun _ => false, fun _ => false⟩
        ⟨true, "fetch failed"⟩
      = some (.NetworkError ⟨true, "fetch failed"⟩) ∧
    adaptError
        ⟨fun _ => false, fun _ => false, fun _ => false,
         fun _ => false, fun _ => false, fun _ => false⟩
        ⟨true, "[API Error] - Not enough balance: got 99, expected 100"⟩
      = some (.NotEnoughFundsError
          ⟨true, "[API Error] - Not enough balance: got 99, expected 100"⟩) := by
  refine ⟨?_, ?_, ?_⟩ <;> decide

/-- C4: for every `TokenAmount` with non-negative amount and fee percentage
p ∈ [0,100], `substractAndGetPercentage` uses only integer arithmetic, the
remainder is non-negative, fee + remainder equals the original amount exactly,
and the fee is the floor of amount·p/100 (never rounded up). -/
theorem substractAndGetPercentage_exact (t : TokenAmount) (p : Int)
    (hamt : 0 ≤ t.amount) (hp0 : 0 ≤ p) (hp1 : p ≤ 100) :
    (t.substractAndGetPercentage p).1.amount
        + (t.substractAndGetPercentage p).2.amount = t.amount ∧
    0 ≤ (t.substractAndGetPercentage p).2.amount ∧
    (t.substractAndGetPercentage p).1.amount * 100 ≤ t.amount * p ∧
    t.amount * p < ((t.substractAndGetPercentage p).1.amount + 1) * 100 := by
  simp only [TokenAmount.substractAndGetPercentage]
  have hle : t.amount * p ≤ t.amount * 100 := by
    exact mul_le_mul_of_nonneg_left hp1 hamt
  have hx : 0 ≤ t.amount * p := mul_nonneg hamt hp0
  have h2 := Int.ediv_add_emod (t.amount * p) 100
  have h3 := Int.emod_nonneg (t.amount * p) (by norm_num : (100 : ℤ) ≠ 0)
  have h4 := Int.emod_lt_of_pos (t.amount * p) (by norm_num : (0 : ℤ) < 100)
  refine ⟨by omega, by omega, by omega, by omega⟩

/-- Witness for C4 at the concrete input amount 7, fee percentage 50:
fee 3, remainder 4. -/
theorem substractAndGetPercentage_exact_witness :
    (TokenAmount.substractAndGetPercentage ⟨7, ⟨"", "ALPH", 0⟩⟩ 50).1.amount
        + (TokenAmount.substractAndGetPercentage ⟨7, ⟨"", "ALPH", 0⟩⟩ 50).2.amount = 7 ∧
    0 ≤ (TokenAmount.substractAndGetPercentage ⟨7, ⟨"", "ALPH", 0⟩⟩ 50).2.amount ∧
    (TokenAmount.substractAndGetPercentage ⟨7, ⟨"", "ALPH", 0⟩⟩ 50).1.amount * 100 ≤ 7 * 50 ∧
    7 * 50 < ((TokenAmount.substractAndGetPercentage ⟨7, ⟨"", "ALPH", 0⟩⟩ 50).1.amount + 1) * 100 :=
  substractAndGetPercentage_exact ⟨7, ⟨"", "ALPH", 0⟩⟩ 50
    (by norm_num) (by norm_num) (by norm_num)

/-! ## User registration (`registerUser`) -/

/-- The recoverable error constants of the error module (`ErrorTypes`). -/
inductive ErrorTypes where
  | USER_ALREADY_REGISTERED
deriving DecidableEq

/-- A user row (`src/db/user`): platform identity, display name, the
database-assigned numeric id (absent before the first save) and the derived
ledger address (absent before derivation). -/
structure User where
  telegramId : Int
  telegramUsername : String
  id : Option Nat
  address : Option String
deriving DecidableEq

/-- The persisted user store (the typeorm repository), modelled as the list of
rows plus the next id the database would assign. -/
structure UserStore where
  rows : List User
  nextId : Nat
deriving DecidableEq

/-- `userStore.existsBy({ telegramId })`. -/
def UserStore.existsByTelegramId (s : UserStore) (tgId : Int) : Bool :=
  s.rows.any (fun r => r.telegramId == tgId)

/-- `userStore.save(user)`: insert with a fresh id when the entity has none,
otherwise update the row with that id in place. -/
def UserStore.save (s : UserStore) (u : User) : UserStore × User :=
  match u.id with
  | none =>
    let u2 := { u with id := some s.nextId }
    ({ rows := s.rows ++ [u2], nextId := s.nextId + 1 }, u2)
  | some i =>
    ({ rows := s.rows.map (fun r => if r.id == some i then u else r),
       nextId := s.nextId }, u)

/-- `registerUser` (body of the registration critical section): reject with
`USER_ALREADY_REGISTERED` when the identity already has a row; otherwise save
the user, derive its address from the just-assigned id (`deriveUserIterator`
returns `user.id`; the HD derivation of the external wallet library is the
abstract `deriveAddr`), and persist the populated record.  The store is
threaded explicitly, so the first component of the result is the store after
the call. -/
def registerUser (deriveAddr : Nat → String) (s : UserStore) (newUser : User) :
    UserStore × Except ErrorTypes User :=
  if s.existsByTelegramId newUser.telegramId then
    (s, .error .USER_ALREADY_REGISTERED)
  else
    let r1 := s.save newUser
    let userWithId := { r1.2 with address := some (deriveAddr (r1.2.id.getD 0)) }
    let r2 := r1.1.save userWithId
    (r2.1, .ok r2.2)

/-- C5: if the identity already has a persisted row, `registerUser` rejects
with `USER_ALREADY_REGISTERED` and performs no store write (the resulting
store is exactly the input store, so the address persisted by the first
successful registration is untouched); on success it saves the user, derives
the address from the assigned id, persists it, and returns the fully
populated record (which is in the resulting store). -/
theorem registerUser_duplicate_rejected_success_populated
    (deriveAddr : Nat → String) (s : UserStore) (u : User) :
    (s.existsByTelegramId u.telegramId = true →
      registerUser deriveAddr s u = (s, .error .USER_ALREADY_REGISTERED)) ∧
    (s.existsByTelegramId u.telegramId = false → u.id = none →
      ∃ saved : User,
        (registerUser deriveAddr s u).2 = .ok saved ∧
        saved.telegramId = u.telegramId ∧
        saved.telegramUsername = u.telegramUsername ∧
        saved.id = some s.nextId ∧
        saved.address = some (deriveAddr s.nextId) ∧
        saved ∈ (registerUser deriveAddr s u).1.rows) := by
  constructor
  · intro h
    simp [registerUser, h]
  · intro h hid
    refine ⟨⟨u.telegramId, u.telegramUsername, some s.nextId,
             some (deriveAddr s.nextId)⟩, ?_⟩
    simp [registerUser, h, UserStore.save, hid, List.mem_append]

/-- Witness for C5: a store holding one registered user (telegram id 10,
address "addrA"); re-registering id 10 rejects and leaves the store as it was;
registering the fresh id 11 yields a populated, persisted record. -/
theorem registerUser_duplicate_rejected_success_populated_witness :
    (registerUser (fun n => String.append "addr-" (toString n))
        ⟨[⟨10, "alice", some 0, some "addrA"⟩], 1⟩ ⟨10, "alice2", none, none⟩
      = (⟨[⟨10, "alice", some 0, some "addrA"⟩], 1⟩,
         .error .USER_ALREADY_REGISTERED)) ∧
    (∃ saved : User,
        (registerUser (fun n => String.append "addr-" (toString n))
            ⟨[⟨10, "alice", some 0, some "addrA"⟩], 1⟩ ⟨11, "bob", none, none⟩).2
          = .ok saved ∧
        saved.telegramId = 11 ∧
        saved.telegramUsername = "bob" ∧
        saved.id = some 1 ∧
        saved.address = some (String.append "addr-" (toString 1)) ∧
        saved ∈ (registerUser (fun n => String.append "addr-" (toString n))
            ⟨[⟨10, "alice", some 0, some "addrA"⟩], 1⟩
            ⟨11, "bob", none, none⟩).1.rows) :=
  ⟨(registerUser_duplicate_rejected_success_populated
      (fun n => String.append "addr-" (toString n))
      ⟨[⟨10, "alice", some 0, some "addrA"⟩], 1⟩ ⟨10, "alice2", none, none⟩).1
      (by decide),
   (registerUser_duplicate_rejected_success_populated
      (fun n => String.append "addr-" (toString n))
      ⟨[⟨10, "alice", some 0, some "addrA"⟩], 1⟩ ⟨11, "bob", none, none⟩).2
      (by decide) rfl⟩

/-! ## Balance aggregation (`sumUserBalance`, `getTotalTokenAmount`) -/

/-- A user's balance: ordered sequence of token amounts. -/
abbrev UserBalance := List TokenAmount

/-- Merge one token amount into an aggregate: add to the entry of the same
asset when present, else append a new entry. -/
def mergeTokenAmount (acc : UserBalance) (t : TokenAmount) : UserBalance :=
  if acc.any (fun a => a.token.id == t.token.id) then
    acc.map (fun a => if a.token.id == t.token.id then ⟨a.amount + t.amount, a.token⟩ else a)
  else acc ++ [t]

/-- Modelled from the spec: `sumUserBalance` of the missing tokens module —
"merging two UserBalance sequences produces one entry per distinct asset with
amounts added; assets present in only one side pass through unchanged". -/
def sumUserBalance (balances : List UserBalance) : UserBalance :=
  balances.foldl (fun acc b => b.foldl mergeTokenAmount acc) []

/-- The pagination loop of `getTotalTokenAmount`, transcribed from the source:
`for (let i = 0; i < totalNbrUsers; i += userBuffer)` with body
`find({ skip: userBuffer*i, take: userBuffer })`, appending the running total
to the fetched balances and re-summing.  The store is modelled as the list of
per-user balances (`getUserBalance` of each registered user, in store order);
`find` with skip/take is drop/take.  The fuel argument only bounds the number
of iterations and exceeds it whenever it is at least `n`. -/
def getTotalTokenAmountLoop (store : List UserBalance) (n b : Nat) :
    Nat → Nat → UserBalance → UserBalance
  | 0, _, total => total
  | fuel + 1, i, total =>
    if i < n then
      let currentUserSet := (store.drop (b * i)).take b
      let currentUserBalance := currentUserSet ++ [total]
      getTotalTokenAmountLoop store n b fuel (i + b)
        (sumUserBalance currentUserBalance)
    else total

/-- `getTotalTokenAmount`: count the users, set the pagination window to
`Math.ceil(n/10)`, and run the loop starting from an empty total. -/
def getTotalTokenAmount (store : List UserBalance) : UserBalance :=
  let n := store.length
  let b := (n + 9) / 10
  getTotalTokenAmountLoop store n b (n + 1) 0 []

/-- The unbatched aggregate the claim compares against: sum the per-user
balances of all users at once. -/
def totalTokenAmountUnbatched (store : List UserBalance) : UserBalance :=
  sumUserBalance store

/-- C2 (failing input): with 11 registered users each holding exactly one base
unit of the native asset, the pagination loop uses window `b = ceil(11/10) = 2`
but skips `b·i` rows while `i` itself already advances in steps of `b`, so the
batches fetch only the users at indices 0,1,4,5,8,9 and the aggregate is 6 —
not the 11 of the unbatched sum.  The claim (and the spec) say the two must
agree, so the `skip: userBuffer*i` of the source is a slip for `skip: i`. -/
theorem getTotalTokenAmount_pagination_drops_users :
    getTotalTokenAmount (List.replicate 11 [⟨1, ⟨"", "ALPH", 0⟩⟩])
      = [⟨6, ⟨"", "ALPH", 0⟩⟩] ∧
    totalTokenAmountUnbatched (List.replicate 11 [⟨1, ⟨"", "ALPH", 0⟩⟩])
      = [⟨11, ⟨"", "ALPH", 0⟩⟩] := by
  constructor <;> decide

/-! ## Withdrawals (`sendAmountToAddressFrom`, `takeFeesAndSweepWalletFromUserTo`) -/

/-- The domain errors the orchestrator rejects with before any network call.
`jsUndefinedCrash` models the TypeError a JavaScript `undefined[0]` access
would raise (never reached on balances produced by `getUserBalance`). -/
inductive AlphError where
  | InvalidAddressError (addr : String)
  | TooSmallALPHWithdrawalError (t : TokenAmount)
  | jsUndefinedCrash
deriving DecidableEq

/-- One output of a transfer transaction (`Destination` of the web3 library):
destination address, attached native-asset amount, and the token transfers. -/
structure Destination where
  address : String
  attoAlphAmount : Int
  tokens : List (String × Int)
deriving DecidableEq

/-- The operator section of the configuration that the withdrawal paths read:
fee percentage, per-group fee-collection addresses, and the two minimum
withdrawal thresholds (expressed in full native-asset units, as compared
against `amountAsNumber`). -/
structure OperatorConfig where
  fees : Int
  addressesByGroup : List String
  strictMinimalWithdrawalAmount : ℚ
  strictMinimalWithdrawalAllAmount : ℚ

/-- Build one destination the way both transfer paths do: the amount itself
when the asset is native, else the fixed dust amount plus a token entry. -/
def mkDestination (addr : String) (dust : Int) (t : TokenAmount) : Destination :=
  { address := addr,
    attoAlphAmount := if t.token.isALPH then t.amount else dust,
    tokens := if t.token.isALPH then [] else [(t.token.id, t.amount)] }

/-- The pre-submission phase of `sendAmountToAddressFrom`: syntactic address
validation (the web3 `isValidAddress` is the abstract `validator`), the
minimum-withdrawal check for the native asset, then the construction of the
destination list (fee output first when an operator fee is configured, the
fee being subtracted from the user's amount).  `.ok` carries the destinations
handed to the gateway; `.error` means the call rejected before any network or
gateway interaction. -/
def sendAmountToAddressFrom (validator : String → Bool) (dust : Int)
    (cfg : OperatorConfig) (group : Nat) (tokenAmount : TokenAmount)
    (destinationAddress : String) : Except AlphError (List Destination) :=
  if !(validator destinationAddress) then
    .error (.InvalidAddressError destinationAddress)
  else if tokenAmount.token.isALPH
      && decide (tokenAmount.amountAsNumber ≤ cfg.strictMinimalWithdrawalAmount) then
    .error (.TooSmallALPHWithdrawalError tokenAmount)
  else
    let afterFee :=
      if 0 < cfg.fees then
        let split := tokenAmount.substractAndGetPercentage cfg.fees
        ([mkDestination (cfg.addressesByGroup.getD group "") dust split.1], split.2)
      else ([], tokenAmount)
    .ok (afterFee.1 ++ [mkDestination destinationAddress dust afterFee.2])

/-- C7: for every syntactically invalid destination address,
`sendAmountToAddressFrom` rejects with `InvalidAddressError` before deriving
a wallet or building a transaction (the embedding returns the error without
producing any destination list). -/
theorem sendAmountToAddressFrom_invalid_address_rejected
    (validator : String → Bool) (dust : Int) (cfg : OperatorConfig)
    (group : Nat) (tokenAmount : TokenAmount) (destinationAddress : String)
    (h : validator destinationAddress = false) :
    sendAmountToAddressFrom validator dust cfg group tokenAmount destinationAddress
      = .error (.InvalidAddressError destinationAddress) := by
  simp [sendAmountToAddressFrom, h]

/-- Witness for C7: a validator refusing the address "bad!" makes the call
reject with `InvalidAddressError "bad!"`. -/
theorem sendAmountToAddressFrom_invalid_address_rejected_witness :
    sendAmountToAddressFrom (fun a => a == "good") 1 ⟨0, [], 0, 0⟩ 0
        ⟨5, ⟨"", "ALPH", 0⟩⟩ "bad!"
      = .error (.InvalidAddressError "bad!") :=
  sendAmountToAddressFrom_invalid_address_rejected (fun a => a == "good") 1
    ⟨0, [], 0, 0⟩ 0 ⟨5, ⟨"", "ALPH", 0⟩⟩ "bad!" (by decide)

/-- C8: for the native asset, a requested amount at or below the configured
minimum withdrawal threshold makes `sendAmountToAddressFrom` reject with
`TooSmallALPHWithdrawalError` before touching the network, while an amount
strictly above the threshold passes this check (the pre-submission phase
succeeds and hands destinations to the gateway). -/
theorem sendAmountToAddressFrom_minimum_withdrawal
    (validator : String → Bool) (dust : Int) (cfg : OperatorConfig)
    (group : Nat) (tokenAmount : TokenAmount) (destinationAddress : String)
    (hv : validator destinationAddress = true)
    (halph : tokenAmount.token.isALPH = true) :
    (tokenAmount.amountAsNumber ≤ cfg.strictMinimalWithdrawalAmount →
      sendAmountToAddressFrom validator dust cfg group tokenAmount destinationAddress
        = .error (.TooSmallALPHWithdrawalError tokenAmount)) ∧
    (cfg.strictMinimalWithdrawalAmount < tokenAmount.amountAsNumber →
      ∃ ds, sendAmountToAddressFrom validator dust cfg group tokenAmount
          destinationAddress = .ok ds) := by
  constructor
  · intro hle
    simp [sendAmountToAddressFrom, hv, halph, hle]
  · intro hgt
    simp [sendAmountToAddressFrom, hv, halph, not_le.mpr hgt]

/-- Witness for C8 with threshold 5 native units (decimals 0): amount 5 is
rejected as too small, amount 7 passes the check. -/
theorem sendAmountToAddressFrom_minimum_withdrawal_witness :
    (sendAmountToAddressFrom (fun _ => true) 1 ⟨0, [], 5, 0⟩ 0
        ⟨5, ⟨"", "ALPH", 0⟩⟩ "dst"
      = .error (.TooSmallALPHWithdrawalError ⟨5, ⟨"", "ALPH", 0⟩⟩)) ∧
    (∃ ds, sendAmountToAddressFrom (fun _ => true) 1 ⟨0, [], 5, 0⟩ 0
        ⟨7, ⟨"", "ALPH", 0⟩⟩ "dst" = .ok ds) :=
  ⟨(sendAmountToAddressFrom_minimum_withdrawal (fun _ => true) 1 ⟨0, [], 5, 0⟩ 0
      ⟨5, ⟨"", "ALPH", 0⟩⟩ "dst" rfl rfl).1 (by norm_num [TokenAmount.amountAsNumber]),
   (sendAmountToAddressFrom_minimum_withdrawal (fun _ => true) 1 ⟨0, [], 5, 0⟩ 0
      ⟨7, ⟨"", "ALPH", 0⟩⟩ "dst" rfl rfl).2 (by norm_num [TokenAmount.amountAsNumber])⟩

/-- The fee stage (stage 1) of `takeFeesAndSweepWalletFromUserTo`: validate
the destination address; when an operator fee is configured, locate the
native-asset entry of the user's balance (`filter(u => u.token.isALPH())[0]`),
reject with `TooSmallALPHWithdrawalError` when it is at or below the sweep-all
threshold, and otherwise build the single multi-output fee transaction.  The
source selects the native fee output with `filter(t => t.token.isALPH)` — a
method reference without the call parentheses, which is truthy for every
element — so that filter is embedded as the constantly true predicate; `[0]`
of its result is `head?`.  `.ok (some d)` is the fee transaction handed to the
gateway, `.ok none` means the fee stage is skipped (no fee configured), and
`.error` means the stage rejected before building or submitting anything. -/
def takeFeesAndSweepStage1 (validator : String → Bool) (cfg : OperatorConfig)
    (group : Nat) (userBalance : UserBalance) (destinationAddress : String) :
    Except AlphError (Option Destination) :=
  if !(validator destinationAddress) then
    .error (.InvalidAddressError destinationAddress)
  else if 0 < cfg.fees then
    match (userBalance.filter (fun u => u.token.isALPH)).head? with
    | none => .error .jsUndefinedCrash
    | some userBalanceAlph =>
      if userBalanceAlph.amountAsNumber ≤ cfg.strictMinimalWithdrawalAllAmount then
        .error (.TooSmallALPHWithdrawalError userBalanceAlph)
      else
        let operatorFeesTokenAmount :=
          userBalance.map (fun t => (t.substractAndGetPercentage cfg.fees).1)
        match (operatorFeesTokenAmount.filter (fun _ => true)).head? with
        | none => .error .jsUndefinedCrash
        | some alphFee =>
          .ok (some
            { address := cfg.addressesByGroup.getD group "",
              attoAlphAmount := alphFee.amount,
              tokens := (operatorFeesTokenAmount.filter
                          (fun t => !t.token.isALPH)).map
                          (fun t => (t.token.id, t.amount)) })
  else .ok none

/-- Taking the fee share of a balance entry preserves its token. -/
theorem fee_share_token (t : TokenAmount) (fees : Int) :
    ((t.substractAndGetPercentage fees).1).token = t.token := rfl

/-- Taking the fee share of each balance entry preserves the token, so
filtering out the native asset commutes with mapping the fee share. -/
theorem filter_not_alph_map_fee_share (fees : Int) (l : List TokenAmount) :
    ((l.map (fun t => (t.substractAndGetPercentage fees).1)).filter
        (fun t => !t.token.isALPH))
      = (l.filter (fun t => !t.token.isALPH)).map
          (fun t => (t.substractAndGetPercentage fees).1) := by
  induction l with
  | nil => rfl
  | cons a l ih =>
    by_cases ha : a.token.isALPH = true <;>
      simp [List.filter_cons, fee_share_token, ha, ih]

/-- C6: with an operator fee configured, if the user's native-asset balance is
at or below the sweep-all minimum threshold, the fee stage of
`takeFeesAndSweepWalletFromUserTo` rejects with `TooSmallALPHWithdrawalError`
before building or submitting any transaction (the embedding is pure: store
and wallet state are untouched on this path). -/
theorem takeFeesAndSweepStage1_too_small_rejected
    (validator : String → Bool) (cfg : OperatorConfig) (group : Nat)
    (userBalance : UserBalance) (destinationAddress : String)
    (alphEntry : TokenAmount)
    (hv : validator destinationAddress = true)
    (hfees : 0 < cfg.fees)
    (hhead : (userBalance.filter (fun u => u.token.isALPH)).head? = some alphEntry)
    (hthr : alphEntry.amountAsNumber ≤ cfg.strictMinimalWithdrawalAllAmount) :
    takeFeesAndSweepStage1 validator cfg group userBalance destinationAddress
      = .error (.TooSmallALPHWithdrawalError alphEntry) := by
  simp [takeFeesAndSweepStage1, hv, hfees, hhead, hthr]

/-- Witness for C6: balance of 3 native units against a sweep-all threshold
of 3 (at the threshold) rejects with `TooSmallALPHWithdrawalError`. -/
theorem takeFeesAndSweepStage1_too_small_rejected_witness :
    takeFeesAndSweepStage1 (fun _ => true) ⟨10, ["fee0"], 0, 3⟩ 0
        [⟨3, ⟨"", "ALPH", 0⟩⟩] "dst"
      = .error (.TooSmallALPHWithdrawalError ⟨3, ⟨"", "ALPH", 0⟩⟩) :=
  takeFeesAndSweepStage1_too_small_rejected (fun _ => true) ⟨10, ["fee0"], 0, 3⟩ 0
    [⟨3, ⟨"", "ALPH", 0⟩⟩] "dst" ⟨3, ⟨"", "ALPH", 0⟩⟩ rfl (by norm_num)
    (by norm_num [List.filter, Token.isALPH, ALPHSymbol])
    (by norm_num [TokenAmount.amountAsNumber])

/-- C3: with an operator fee p > 0 configured and the native-asset balance
strictly above the sweep-all threshold, the fee-stage transaction sends to the
fee address of the sender wallet's group one native-asset output equal to
⌊nativeBalance·p/100⌋ and one token entry ⌊heldAmount·p/100⌋ for each
non-native held asset (the balance list starts with the native entry, as
`getUserBalance` guarantees). -/
theorem takeFeesAndSweepStage1_fee_outputs
    (validator : String → Bool) (cfg : OperatorConfig) (group : Nat)
    (alphEntry : TokenAmount) (rest : List TokenAmount)
    (destinationAddress : String)
    (hv : validator destinationAddress = true)
    (hfees : 0 < cfg.fees)
    (halph : alphEntry.token.isALPH = true)
    (hthr : cfg.strictMinimalWithdrawalAllAmount < alphEntry.amountAsNumber) :
    takeFeesAndSweepStage1 validator cfg group (alphEntry :: rest)
        destinationAddress
      = .ok (some
          { address := cfg.addressesByGroup.getD group "",
            attoAlphAmount := alphEntry.amount * cfg.fees / 100,
            tokens := (rest.filter (fun t => !t.token.isALPH)).map
                        (fun t => (t.token.id, t.amount * cfg.fees / 100)) }) := by
  simp [takeFeesAndSweepStage1, hv, hfees, halph, not_le.mpr hthr,
    List.filter_cons, fee_share_token, filter_not_alph_map_fee_share,
    List.map_map]
  exact ⟨rfl, fun a _ _ => rfl⟩

/-- Witness for C3: fee 10%, threshold 3, balance 100 native units plus 55 of
a token "tok": the fee transaction sends 10 native units and one token entry
of 5. -/
theorem takeFeesAndSweepStage1_fee_outputs_witness :
    takeFeesAndSweepStage1 (fun _ => true) ⟨10, ["fee0"], 0, 3⟩ 0
        [⟨100, ⟨"", "ALPH", 0⟩⟩, ⟨55, ⟨"tok", "TOK", 0⟩⟩] "dst"
      = .ok (some
          { address := "fee0",
            attoAlphAmount := 10,
            tokens := [("tok", 5)] }) :=
  takeFeesAndSweepStage1_fee_outputs (fun _ => true) ⟨10, ["fee0"], 0, 3⟩ 0
    ⟨100, ⟨"", "ALPH", 0⟩⟩ [⟨55, ⟨"tok", "TOK", 0⟩⟩] "dst" rfl (by norm_num)
    (by norm_num [Token.isALPH, ALPHSymbol])
    (by norm_num [TokenAmount.amountAsNumber])

/-! ## Balance reporting (`convertAddressBalanceToUserBalance`, `getUserBalance`) -/

/-- One token balance entry of the node's address-balance answer. -/
structure TokenBalanceEntry where
  id : String
  amount : Int
deriving DecidableEq

/-- The node's address-balance answer (`Balance` of the node API): the
native-asset balance plus the held token balances. -/
structure Balance where
  balance : Int
  tokenBalances : List TokenBalanceEntry
deriving DecidableEq

/-- `convertAddressBalanceToUserBalance`: start from the native-asset entry,
then — when token balances are present — resolve each held asset id through
the token registry (`getTokenAmountFromIdAmount`, the abstract `registry`;
`none` models a rejected promise for an unrecognised asset) and keep only the
fulfilled results, in order (`Promise.allSettled` + filter fulfilled). -/
def convertAddressBalanceToUserBalance (alphToken : Token)
    (registry : String → Int → Option TokenAmount) (balance : Balance) :
    UserBalance :=
  let userBalance : UserBalance := [⟨balance.balance, alphToken⟩]
  if 0 < balance.tokenBalances.length then
    userBalance
      ++ (balance.tokenBalances.map (fun t => registry t.id t.amount)).filterMap id
  else userBalance

/-- `getUserBalance`: fetch the address balance (the fetched answer is the
explicit `balance` argument), convert it, and if a token argument is given
filter the result down to entries with that token's id. -/
def getUserBalance (alphToken : Token)
    (registry : String → Int → Option TokenAmount) (balance : Balance)
    (tokenFilter : Option Token) : UserBalance :=
  let b := convertAddressBalanceToUserBalance alphToken registry balance
  match tokenFilter with
  | none => b
  | some token => b.filter (fun t => t.token.id == token.id)

/-- C9: every balance returned by the conversion underlying `getUserBalance`
contains the native-asset entry (possibly zero); an asset id the registry does
not recognise is dropped (the result has exactly one entry per recognised
held asset beyond the native one) while every recognised entry appears in the
result unaffected — an unrecognised asset is never fatal (the function is
total). -/
theorem convertAddressBalanceToUserBalance_native_and_recognised
    (alphToken : Token) (registry : String → Int → Option TokenAmount)
    (balance : Balance) :
    (⟨balance.balance, alphToken⟩ : TokenAmount)
        ∈ convertAddressBalanceToUserBalance alphToken registry balance ∧
    (convertAddressBalanceToUserBalance alphToken registry balance).length
        = 1 + balance.tokenBalances.countP (fun t => (registry t.id t.amount).isSome) ∧
    (∀ tb ∈ balance.tokenBalances, ∀ ta : TokenAmount,
      registry tb.id tb.amount = some ta →
        ta ∈ convertAddressBalanceToUserBalance alphToken registry balance) := by
  unfold convertAddressBalanceToUserBalance
  rcases balance with ⟨bal, tbs⟩
  by_cases h0 : 0 < tbs.length
  · simp only [h0, if_pos, List.filterMap_map, Function.id_comp]
    refine ⟨List.mem_cons_self _ _, ?_, ?_⟩
    · simp [List.length_filterMap_eq_countP, Nat.add_comm]
    · intro tb htb ta hta
      exact List.mem_cons_of_mem _ (List.mem_filterMap.mpr ⟨tb, htb, hta⟩)
  · have : tbs = [] := List.length_eq_zero.mp (by omega)
    subst this
    simp

/-- Witness for C9: an address holding the native asset plus one recognised
("aa") and one unrecognised ("zz") token: the native entry is present, the
length is 1 + 1, and the recognised entry survives unaffected. -/
theorem convertAddressBalanceToUserBalance_native_and_recognised_witness :
    ((⟨0, ⟨"", "ALPH", 0⟩⟩ : TokenAmount)
        ∈ convertAddressBalanceToUserBalance ⟨"", "ALPH", 0⟩
            (fun i a => if i == "aa" then some ⟨a, ⟨"aa", "AA", 0⟩⟩ else none)
            ⟨0, [⟨"aa", 4⟩, ⟨"zz", 9⟩]⟩) ∧
    (convertAddressBalanceToUserBalance ⟨"", "ALPH", 0⟩
        (fun i a => if i == "aa" then some ⟨a, ⟨"aa", "AA", 0⟩⟩ else none)
        ⟨0, [⟨"aa", 4⟩, ⟨"zz", 9⟩]⟩).length
      = 1 + List.countP
          (fun t : TokenBalanceEntry =>
            ((fun i a => if i == "aa" then some (⟨a, ⟨"aa", "AA", 0⟩⟩ : TokenAmount) else none) t.id t.amount).isSome)
          [⟨"aa", 4⟩, ⟨"zz", 9⟩] ∧
    (∀ tb ∈ ([⟨"aa", 4⟩, ⟨"zz", 9⟩] : List TokenBalanceEntry), ∀ ta : TokenAmount,
      (fun i a => if i == "aa" then some (⟨a, ⟨"aa", "AA", 0⟩⟩ : TokenAmount) else none) tb.id tb.amount = some ta →
        ta ∈ convertAddressBalanceToUserBalance ⟨"", "ALPH", 0⟩
            (fun i a => if i == "aa" then some ⟨a, ⟨"aa", "AA", 0⟩⟩ else none)
            ⟨0, [⟨"aa", 4⟩, ⟨"zz", 9⟩]⟩) :=
  convertAddressBalanceToUserBalance_native_and_recognised ⟨"", "ALPH", 0⟩
    (fun i a => if i == "aa" then some ⟨a, ⟨"aa", "AA", 0⟩⟩ else none)
    ⟨0, [⟨"aa", 4⟩, ⟨"zz", 9⟩]⟩

/-- C10: `getUserBalance` with an explicit token argument returns exactly the
entries of the unfiltered balance whose token id equals the given token's id;
when the user holds none of that token the call resolves with the empty list
instead of rejecting. -/
theorem getUserBalance_token_filter
    (alphToken : Token) (registry : String → Int → Option TokenAmount)
    (balance : Balance) (token : Token) :
    getUserBalance alphToken registry balance (some token)
      = (getUserBalance alphToken registry balance none).filter
          (fun t => t.token.id == token.id) ∧
    ((∀ t ∈ getUserBalance alphToken registry balance none,
        t.token.id ≠ token.id) →
      getUserBalance alphToken registry balance (some token) = []) := by
  refine ⟨rfl, ?_⟩
  intro hnone
  unfold getUserBalance
  refine List.filter_eq_nil_iff.mpr ?_
  intro t ht
  simpa using hnone t ht

/-- Witness for C10: an address holding only the native asset, queried for
token id "bb": the filtered result is the filter of the unfiltered one, and
since no entry has id "bb" the call resolves with `[]`. -/
theorem getUserBalance_token_filter_witness :
    (getUserBalance ⟨"", "ALPH", 0⟩ (fun _ _ => none) ⟨5, []⟩
        (some ⟨"bb", "BB", 0⟩)
      = (getUserBalance ⟨"", "ALPH", 0⟩ (fun _ _ => none) ⟨5, []⟩ none).filter
          (fun t => t.token.id == "bb")) ∧
    getUserBalance ⟨"", "ALPH", 0⟩ (fun _ _ => none) ⟨5, []⟩
        (some ⟨"bb", "BB", 0⟩) = [] :=
  ⟨(getUserBalance_token_filter ⟨"", "ALPH", 0⟩ (fun _ _ => none) ⟨5, []⟩
      ⟨"bb", "BB", 0⟩).1,
   (getUserBalance_token_filter ⟨"", "ALPH", 0⟩ (fun _ _ => none) ⟨5, []⟩
      ⟨"bb", "BB", 0⟩).2 (by decide)⟩

end TipALPH
